import Mathlib

/-
Verification of the gap-trading pipeline in main.go (package main).

Embedding conventions:
* Go float64 values are modelled as rationals (ℚ); finite arithmetic is
  exact.  Where IEEE special values (Inf/NaN) matter, a separate type EF
  adds them explicitly (see below).
* Go int is modelled as ℤ; no claim touches the 64-bit overflow range.
* math.Round rounds half away from zero; Go's float-to-int conversion
  truncates toward zero.  Both are modelled explicitly.
* Fallible operations return Except/Option; a Go runtime panic is
  modelled as Option.none.
-/

/-- Go math.Round: nearest integer, rounding half away from zero. -/
def goRound (q : ℚ) : ℤ :=
  if 0 ≤ q then ⌊q + 1/2⌋ else -⌊-q + 1/2⌋

/-- Go conversion float64 → int: truncation toward zero. -/
def goTrunc (q : ℚ) : ℤ :=
  if 0 ≤ q then ⌊q⌋ else ⌈q⌉

/-- Rounding to 2 decimals, as the pattern math.Round(x*100)/100 in the source. -/
def round2 (q : ℚ) : ℚ :=
  (goRound (q * 100) : ℚ) / 100

/-- Package-level var accountBalance = 10000.0 (main.go line 64). -/
def accountBalance : ℚ := 10000

/-- Package-level var lossTolerance = 0.2 (main.go line 65). -/
def lossTolerance : ℚ := 1/5

/-- Package-level var maxLossPerTrade = accountBalance * lossTolerance (main.go line 66). -/
def maxLossPerTrade : ℚ := accountBalance * lossTolerance

/-- Package-level var profitPercent = 0.8 (main.go line 67). -/
def profitPercent : ℚ := 4/5

/-- Struct Stock (main.go lines 18-22). -/
structure Stock where
  Ticker : String
  Gap : ℚ
  OpeningPrice : ℚ
deriving DecidableEq, Repr

/-- Struct Position (main.go lines 69-75). -/
structure Position where
  EntryPrice : ℚ
  Shares : ℤ
  TakeProfitPrice : ℚ
  StopLossPrice : ℚ
  Profit : ℚ
deriving DecidableEq, Repr

/-- Function Calculate (main.go lines 77-97), translated line by line.
The local profit is rounded at line 88 and the Profit field applies
math.Round(profit*100)/100 once more at line 95; both roundings are kept. -/
def Calculate (gapPercent openingPrice : ℚ) : Position :=
  let closingPrice := openingPrice / (1 + gapPercent)
  let gapValue := closingPrice - openingPrice
  let profitFromGap := profitPercent * gapValue
  let stopLoss := openingPrice - profitFromGap
  let takeProfit := openingPrice + profitFromGap
  let shares : ℤ := goTrunc (maxLossPerTrade / |stopLoss - openingPrice|)
  let profit := |openingPrice - takeProfit| * (shares : ℚ)
  let profit2 := round2 profit
  { EntryPrice := round2 openingPrice
    Shares := shares
    TakeProfitPrice := round2 takeProfit
    StopLossPrice := round2 stopLoss
    Profit := round2 profit2 }

/-! Spec-side definitions, written from the words of the specification's
position-sizing algorithm (spec §4.2), to be compared with Calculate. -/

/-- Spec step 1: impliedPriorClose = openingPrice / (1 + gapPercent). -/
def impliedPriorClose (gapPercent openingPrice : ℚ) : ℚ :=
  openingPrice / (1 + gapPercent)

/-- Spec step 2: gapValue = impliedPriorClose - openingPrice. -/
def specGapValue (gapPercent openingPrice : ℚ) : ℚ :=
  impliedPriorClose gapPercent openingPrice - openingPrice

/-- Spec step 3: profitFromGap = profitCaptureFraction * gapValue. -/
def specProfitFromGap (gapPercent openingPrice : ℚ) : ℚ :=
  profitPercent * specGapValue gapPercent openingPrice

/-- Spec step 4: stopLossPrice = openingPrice - profitFromGap. -/
def specStopLossPrice (gapPercent openingPrice : ℚ) : ℚ :=
  openingPrice - specProfitFromGap gapPercent openingPrice

/-- Spec step 4: takeProfitPrice = openingPrice + profitFromGap. -/
def specTakeProfitPrice (gapPercent openingPrice : ℚ) : ℚ :=
  openingPrice + specProfitFromGap gapPercent openingPrice

/-- Spec RiskPolicy: maxRiskBudget = accountBalance * lossToleranceFraction. -/
def maxRiskBudget : ℚ := accountBalance * lossTolerance

/-- Spec step 5: shareCount = floor(maxRiskBudget / abs(stopLossPrice - openingPrice)),
computed on the unrounded stop-loss value. -/
def specShareCount (gapPercent openingPrice : ℚ) : ℤ :=
  ⌊maxRiskBudget / |specStopLossPrice gapPercent openingPrice - openingPrice|⌋

/-- The candidate filter (main.go lines 189-191): slices.DeleteFunc removes
the stocks with abs(Gap) < 0.1, keeping the rest in order. -/
def filterStocks (stocks : List Stock) : List Stock :=
  stocks.filter (fun s => decide (¬ (|s.Gap| < 1/10)))

/-- Struct Article (main.go lines 125-128); time.Time is abstracted to a
string timestamp, irrelevant to every claim. -/
structure Article where
  PublishOn : String
  Headline : String
deriving DecidableEq, Repr

/-- Struct Selection (main.go lines 99-103); the embedded Position keeps its name. -/
structure Selection where
  Ticker : String
  Position : Position
  Articles : List Article
deriving DecidableEq, Repr

/-- Struct Attributes (main.go lines 112-115). -/
structure Attributes where
  PublishOn : String
  Title : String
deriving DecidableEq, Repr

/-- Struct SeekingAlphaNews (main.go lines 117-119). -/
structure SeekingAlphaNews where
  attributes : Attributes
deriving DecidableEq, Repr

/-- Struct SeekingAlphaResponse (main.go lines 121-123). -/
structure SeekingAlphaResponse where
  Data : List SeekingAlphaNews
deriving DecidableEq, Repr

/-- An HTTP response as FetchNews consumes it: its status code, and the
outcome of json Decode on its body.  decodedBody = none models a malformed
body: Decode returns an error (which line 148 discards) and leaves res at
its zero value, whose Data field is nil. -/
structure HttpResponse where
  StatusCode : ℤ
  decodedBody : Option SeekingAlphaResponse
deriving DecidableEq, Repr

def exceptIsError {α : Type} : Except String α → Bool
  | .error _ => true
  | .ok _ => false

/-- Function FetchNews (main.go lines 130-161).  Its two external effects are
parameters: newRequestErr is the error of http.NewRequest (line 131), and
doResult the outcome of client.Do (line 138).  Note line 148 ignores the
Decode error, so a malformed body yields .ok with the zero-value response. -/
def FetchNews (newRequestErr : Option String)
    (doResult : Except String HttpResponse) : Except String (List Article) :=
  match newRequestErr with
  | some e => .error e
  | none =>
    match doResult with
    | .error e => .error e
    | .ok resp =>
      if resp.StatusCode < 200 ∨ resp.StatusCode > 299 then
        .error ("unsuccessful response code - " ++ toString resp.StatusCode ++ " received")
      else
        let res : SeekingAlphaResponse := resp.decodedBody.getD { Data := [] }
        .ok (res.Data.map (fun item =>
          { PublishOn := item.attributes.PublishOn, Headline := item.attributes.Title }))

/-- True exactly when client.Do failed (a transport failure). -/
def transportFailed : Except String HttpResponse → Bool
  | .error _ => true
  | .ok _ => false

/-- True exactly when the response arrived with a non-2xx status code. -/
def nonSuccessStatus : Except String HttpResponse → Bool
  | .error _ => false
  | .ok r => decide (r.StatusCode < 200 ∨ r.StatusCode > 299)

/-- Body of one enrichment goroutine (main.go lines 204-219), minus the
prints: it computes the Position, runs the news lookup, and builds the one
Selection it sends.  FetchNews returns nil articles on every error path, so
a failed lookup leaves Articles empty. -/
def enrich (fetchResult : String → Except String (List Article)) (s : Stock) : Selection :=
  { Ticker := s.Ticker
    Position := Calculate s.Gap s.OpeningPrice
    Articles := match fetchResult s.Ticker with
      | .ok a => a
      | .error _ => [] }

/-- The fan-out (main.go lines 201-220): one goroutine, hence one Selection,
per filtered stock. -/
def fanOut (fetchResult : String → Except String (List Article))
    (stocks : List Stock) : List Selection :=
  stocks.map (enrich fetchResult)

/-- The console output of one enrichment goroutine (main.go lines 208-211):
the error report when the lookup failed, then the article count line. -/
def taskLogs (fetchResult : String → Except String (List Article)) (s : Stock) : List String :=
  match fetchResult s.Ticker with
  | .error e => ["error loading news about " ++ s.Ticker ++ ", " ++ e,
                 "Found 0 articles about " ++ s.Ticker]
  | .ok a => ["Found " ++ toString a.length ++ " articles about " ++ s.Ticker]

/-- The collection loop (main.go lines 224-229) as a step function.
State: the values still to be received from the channel (pending), the
selections slice (acc), and whether selectionChan has been closed.
Loop head: when the channel is closed (the buffer is empty by then, since
close only happens once all N values were appended), range exits with acc;
when it is open and a value is pending, the body appends it and closes the
channel if len(selections) == N; when it is open and nothing is pending,
every goroutine is asleep and the program deadlocks (modelled as none). -/
def collectLoop (N : ℕ) : List Selection → List Selection → Bool → Option (List Selection)
  | _, acc, true => some acc
  | [], _, false => none
  | s :: rest, acc, false => collectLoop N rest (acc ++ [s]) (acc.length + 1 == N)

/-- Function Deliver (main.go lines 163-175); the outcomes of os.Create and
encoder.Encode are parameters. -/
def Deliver (createResult encodeResult : Except String Unit) : Except String Unit :=
  match createResult with
  | .error e => .error ("error creating file: " ++ e)
  | .ok _ =>
    match encodeResult with
    | .error e => .error ("error encoding selections: " ++ e)
    | .ok _ => .ok ()

/-- Tail of main (main.go lines 231-237): the process exit status and the
printed lines, as a function of the Deliver outcome.  Both branches return
from main normally and os.Exit is never called, so the Go process exits
with status 0 in both cases. -/
def mainExitCode (deliverResult : Except String Unit) : ℕ × List String :=
  match deliverResult with
  | .error e => (0, ["Error writing output: " ++ e])
  | .ok _ => (0, ["Finished writing output to ./opg.json"])

/-- The row loop of Load (main.go lines 44-59) over the rows that follow the
header, parameterised by strconv.ParseFloat (modelled as pf).  Indexing
row[0], row[1] or row[2] out of range is a runtime panic, modelled as none;
a row whose gap or opening price fails to parse is skipped (continue).
Note row[2] is only read after row[1] parsed successfully. -/
def parseRows (pf : String → Option ℚ) : List (List String) → Option (List Stock)
  | [] => some []
  | row :: rest =>
    match row[0]? with
    | none => none
    | some ticker =>
      match row[1]? with
      | none => none
      | some gapStr =>
        match pf gapStr with
        | none => parseRows pf rest
        | some gap =>
          match row[2]? with
          | none => none
          | some opStr =>
            match pf opStr with
            | none => parseRows pf rest
            | some op => (parseRows pf rest).map (fun l => ⟨ticker, gap, op⟩ :: l)

/-- Function Load (main.go lines 24-62) after csv ReadAll succeeded, acting
on the parsed rows.  slices.Delete(rows, 0, 1) panics when rows is empty
(Delete requires j <= len(s)); otherwise it drops the header row and the
loop above runs. -/
def Load (pf : String → Option ℚ) (rows : List (List String)) : Option (List Stock) :=
  match rows with
  | [] => none
  | _ :: tail => parseRows pf tail

/-- The stock list Load is expected to produce from well-formed rows: one
Stock per row whose two numeric fields both parse, in order. -/
def stocksSpec (pf : String → Option ℚ) (rows : List (List String)) : List Stock :=
  rows.filterMap (fun r =>
    match r[0]?, r[1]?, r[2]? with
    | some t, some gs, some os =>
      match pf gs, pf os with
      | some g, some o => some ⟨t, g, o⟩
      | _, _ => none
    | _, _, _ => none)

/-- A parse stub for closed statements about Load: fails on every string,
the way strconv.ParseFloat fails on a non-numeric field such as "x". -/
def pfNone : String → Option ℚ := fun _ => none

/-- A news lookup that always fails, for closed statements about the fan-out. -/
def fetchBoom : String → Except String (List Article) := fun _ => Except.error "boom"

/-- IEEE-style extension of ℚ with the two infinities and NaN, for the one
claim where Calculate is fed gapPercent = -1 and float64 special values
propagate.  Finite arithmetic is kept exact (no binary rounding): only the
special-value propagation rules of IEEE 754 matter on the verified path.
ℚ has no signed zero; the division rule below fixes the +0 divisor sign,
matching the one reachable case 1 + (-1) = +0. -/
inductive EF where
  | fin (q : ℚ)
  | pinf
  | ninf
  | nan
deriving DecidableEq, Repr

namespace EF

def add : EF → EF → EF
  | nan, _ => nan
  | _, nan => nan
  | pinf, ninf => nan
  | ninf, pinf => nan
  | pinf, _ => pinf
  | _, pinf => pinf
  | ninf, _ => ninf
  | _, ninf => ninf
  | fin a, fin b => fin (a + b)

def neg : EF → EF
  | fin a => fin (-a)
  | pinf => ninf
  | ninf => pinf
  | nan => nan

/-- IEEE subtraction is addition of the negation. -/
def sub (x y : EF) : EF := add x (neg y)

def mul : EF → EF → EF
  | nan, _ => nan
  | _, nan => nan
  | fin a, pinf => if 0 < a then pinf else if a < 0 then ninf else nan
  | pinf, fin b => if 0 < b then pinf else if b < 0 then ninf else nan
  | fin a, ninf => if 0 < a then ninf else if a < 0 then pinf else nan
  | ninf, fin b => if 0 < b then ninf else if b < 0 then pinf else nan
  | pinf, pinf => pinf
  | ninf, ninf => pinf
  | pinf, ninf => ninf
  | ninf, pinf => ninf
  | fin a, fin b => fin (a * b)

def div : EF → EF → EF
  | nan, _ => nan
  | _, nan => nan
  | fin a, fin b =>
      if b = 0 then (if 0 < a then pinf else if a < 0 then ninf else nan)
      else fin (a / b)
  | fin _, pinf => fin 0
  | fin _, ninf => fin 0
  | pinf, fin b => if 0 ≤ b then pinf else ninf
  | ninf, fin b => if 0 ≤ b then ninf else pinf
  | pinf, pinf => nan
  | pinf, ninf => nan
  | ninf, pinf => nan
  | ninf, ninf => nan

def abs : EF → EF
  | fin a => fin |a|
  | nan => nan
  | _ => pinf

/-- Go math.Round: propagates NaN and the infinities unchanged. -/
def round : EF → EF
  | fin a => fin ((goRound a : ℤ) : ℚ)
  | x => x

/-- Go conversion float64 → int.  For non-finite values Go leaves the result
implementation-defined; amd64 yields the minimal int64.  No verified path
reaches that case. -/
def toInt : EF → ℤ
  | fin q => goTrunc q
  | _ => -(2^63)

/-- Go conversion int → float64 (exact in the claims' range). -/
def ofInt (n : ℤ) : EF := fin (n : ℚ)

/-- The pattern math.Round(x*100)/100 over EF. -/
def round2 (x : EF) : EF := div (round (mul x (fin 100))) (fin 100)

end EF

/-- Position with float64 fields kept as EF, for the special-value claim. -/
structure PositionEF where
  EntryPrice : EF
  Shares : ℤ
  TakeProfitPrice : EF
  StopLossPrice : EF
  Profit : EF
deriving DecidableEq, Repr

/-- Function Calculate (main.go lines 77-97) again, over EF, keeping IEEE
special values; the same line-by-line translation as Calculate above. -/
def CalculateEF (gapPercent openingPrice : EF) : PositionEF :=
  let closingPrice := EF.div openingPrice (EF.add (EF.fin 1) gapPercent)
  let gapValue := EF.sub closingPrice openingPrice
  let profitFromGap := EF.mul (EF.fin profitPercent) gapValue
  let stopLoss := EF.sub openingPrice profitFromGap
  let takeProfit := EF.add openingPrice profitFromGap
  let shares : ℤ := EF.toInt (EF.div (EF.fin maxLossPerTrade) (EF.abs (EF.sub stopLoss openingPrice)))
  let profit := EF.mul (EF.abs (EF.sub openingPrice takeProfit)) (EF.ofInt shares)
  let profit2 := EF.round2 profit
  { EntryPrice := EF.round2 openingPrice
    Shares := shares
    TakeProfitPrice := EF.round2 takeProfit
    StopLossPrice := EF.round2 stopLoss
    Profit := EF.round2 profit2 }

/-! Helper lemmas about the numeric primitives. -/

theorem goTrunc_eq_floor (q : ℚ) (h : 0 ≤ q) : goTrunc q = ⌊q⌋ := by
  simp [goTrunc, h]

theorem goRound_intCast (n : ℤ) : goRound (n : ℚ) = n := by
  unfold goRound
  rcases le_or_lt 0 (n : ℚ) with h | h
  · rw [if_pos h]
    have h1 : ⌊(n : ℚ) + 1/2⌋ = n + ⌊(1:ℚ)/2⌋ := Int.floor_int_add n (1/2)
    rw [h1]
    norm_num
  · rw [if_neg (not_le.mpr h)]
    have h1 : ⌊((-n : ℤ) : ℚ) + 1/2⌋ = -n + ⌊(1:ℚ)/2⌋ := Int.floor_int_add (-n) (1/2)
    push_cast at h1
    rw [h1]
    norm_num

theorem round2_idem (q : ℚ) : round2 (round2 q) = round2 q := by
  unfold round2
  rw [div_mul_cancel₀ _ (by norm_num : (100:ℚ) ≠ 0), goRound_intCast]

theorem floor_eval (q : ℚ) (n : ℤ) (h1 : (n:ℚ) ≤ q) (h2 : q < n + 1) : ⌊q⌋ = n :=
  Int.floor_eq_iff.mpr ⟨h1, h2⟩

theorem round2_eval (q : ℚ) (n : ℤ) (r : ℚ) (h0 : 0 ≤ q * 100)
    (h1 : (n:ℚ) ≤ q * 100 + 1/2) (h2 : q * 100 + 1/2 < n + 1) (hr : (n:ℚ)/100 = r) :
    round2 q = r := by
  unfold round2 goRound
  rw [if_pos h0, floor_eval _ n h1 h2, hr]

/-- The five output fields of Calculate, expressed through the unrounded
spec-side quantities.  Shared scaffolding for the claim theorems below. -/
theorem calculate_fields (g p : ℚ) :
    (Calculate g p).EntryPrice = round2 p ∧
    (Calculate g p).StopLossPrice = round2 (specStopLossPrice g p) ∧
    (Calculate g p).TakeProfitPrice = round2 (specTakeProfitPrice g p) ∧
    (Calculate g p).Shares = specShareCount g p ∧
    (Calculate g p).Profit = round2 (|p - specTakeProfitPrice g p| * (specShareCount g p : ℚ)) := by
  have hnn : (0:ℚ) ≤ maxRiskBudget / |specStopLossPrice g p - p| :=
    div_nonneg (by norm_num [maxRiskBudget, accountBalance, lossTolerance]) (abs_nonneg _)
  refine ⟨rfl, rfl, rfl, ?_, ?_⟩
  · show goTrunc (maxRiskBudget / |specStopLossPrice g p - p|) = specShareCount g p
    rw [goTrunc_eq_floor _ hnn]
    rfl
  · show round2 (round2 (|p - specTakeProfitPrice g p| *
        ((goTrunc (maxRiskBudget / |specStopLossPrice g p - p|) : ℤ) : ℚ))) = _
    rw [round2_idem, goTrunc_eq_floor _ hnn]
    rfl

theorem spec_sl_scenario : specStopLossPrice (3/20) 100 = 2540/23 := by
  norm_num [specStopLossPrice, specProfitFromGap, specGapValue, impliedPriorClose, profitPercent]

theorem spec_tp_scenario : specTakeProfitPrice (3/20) 100 = 2060/23 := by
  norm_num [specTakeProfitPrice, specProfitFromGap, specGapValue, impliedPriorClose, profitPercent]

theorem spec_shares_scenario : specShareCount (3/20) 100 = 191 := by
  unfold specShareCount
  rw [spec_sl_scenario,
    show |(2540:ℚ)/23 - 100| = 240/23 by rw [abs_of_nonneg (by norm_num)]; norm_num,
    show maxRiskBudget / ((240:ℚ)/23) = 575/3 by
      norm_num [maxRiskBudget, accountBalance, lossTolerance]]
  exact floor_eval _ 191 (by norm_num) (by norm_num)

/-- Concrete evaluation of Calculate at gapPercent = 0.15, openingPrice = 100
(shared scaffolding: 110.43 / 89.57 / 191 shares / profit 1993.04). -/
theorem calc_scenario :
    (Calculate (3/20) 100).EntryPrice = 100 ∧
    (Calculate (3/20) 100).StopLossPrice = 11043/100 ∧
    (Calculate (3/20) 100).TakeProfitPrice = 8957/100 ∧
    (Calculate (3/20) 100).Shares = 191 ∧
    (Calculate (3/20) 100).Profit = 49826/25 := by
  obtain ⟨hE, hSL, hTP, hS, hP⟩ := calculate_fields (3/20) 100
  refine ⟨?_, ?_, ?_, ?_, ?_⟩
  · rw [hE]; exact round2_eval _ 10000 _ (by norm_num) (by norm_num) (by norm_num) (by norm_num)
  · rw [hSL, spec_sl_scenario]
    exact round2_eval _ 11043 _ (by norm_num) (by norm_num) (by norm_num) (by norm_num)
  · rw [hTP, spec_tp_scenario]
    exact round2_eval _ 8957 _ (by norm_num) (by norm_num) (by norm_num) (by norm_num)
  · rw [hS, spec_shares_scenario]
  · rw [hP, spec_tp_scenario, spec_shares_scenario,
      show |(100:ℚ) - 2060/23| = 240/23 by rw [abs_of_nonneg (by norm_num)]; norm_num,
      show ((240:ℚ)/23) * ((191:ℤ):ℚ) = 45840/23 by norm_num]
    exact round2_eval _ 199304 _ (by norm_num) (by norm_num) (by norm_num) (by norm_num)

/-- C1: for every finite gapPercent different from -1 and every finite
openingPrice, Calculate returns exactly the plan of the spec's algorithm:
entry, stop-loss and take-profit are the unrounded spec values rounded to
2 decimals, and the share count is the floor of maxRiskBudget over the
absolute unrounded stop distance. -/
theorem calculate_refines_spec (g p : ℚ) (hg : g ≠ -1) :
    (Calculate g p).EntryPrice = round2 p ∧
    (Calculate g p).StopLossPrice = round2 (specStopLossPrice g p) ∧
    (Calculate g p).TakeProfitPrice = round2 (specTakeProfitPrice g p) ∧
    (Calculate g p).Shares = specShareCount g p := by
  obtain ⟨h1, h2, h3, h4, -⟩ := calculate_fields g p
  exact ⟨h1, h2, h3, h4⟩

/-- Witness for calculate_refines_spec at gapPercent = 0.15, openingPrice = 100. -/
theorem calculate_refines_spec_witness :
    (3/20 : ℚ) ≠ -1 ∧
    ((Calculate (3/20) 100).EntryPrice = round2 100 ∧
     (Calculate (3/20) 100).StopLossPrice = round2 (specStopLossPrice (3/20) 100) ∧
     (Calculate (3/20) 100).TakeProfitPrice = round2 (specTakeProfitPrice (3/20) 100) ∧
     (Calculate (3/20) 100).Shares = specShareCount (3/20) 100) :=
  ⟨by norm_num, calculate_refines_spec (3/20) 100 (by norm_num)⟩

/-- C2 counterexample: at the spec's own scenario (gapPercent = 0.15,
openingPrice = 100) the code's expected profit is 1993.04, not ≈ 1991.13:
the two differ by 1.91, far beyond 2-decimal rounding slack. -/
theorem scenario_profit_counterexample :
    (Calculate (3/20) 100).Profit = 49826/25 ∧
    ¬ (|(Calculate (3/20) 100).Profit - 199113/100| ≤ 1/100) := by
  obtain ⟨-, -, -, -, hP⟩ := calc_scenario
  refine ⟨hP, ?_⟩
  rw [hP, show |(49826:ℚ)/25 - 199113/100| = 191/100 by rw [abs_of_nonneg (by norm_num)]; norm_num]
  norm_num

/-- C2 amended: for the fixed policy (maxRiskBudget = 2000) and the candidate
gapPercent = 0.15, openingPrice = 100, the sizer returns stopLossPrice 110.43,
takeProfitPrice 89.57, shareCount 191 and expectedProfit 1993.04 (the code
multiplies the unrounded target distance 240/23 by 191, then rounds). -/
theorem scenario_values_amended :
    maxLossPerTrade = 2000 ∧
    (Calculate (3/20) 100).StopLossPrice = 11043/100 ∧
    (Calculate (3/20) 100).TakeProfitPrice = 8957/100 ∧
    (Calculate (3/20) 100).Shares = 191 ∧
    (Calculate (3/20) 100).Profit = 49826/25 := by
  obtain ⟨-, hSL, hTP, hS, hP⟩ := calc_scenario
  exact ⟨by norm_num [maxLossPerTrade, accountBalance, lossTolerance], hSL, hTP, hS, hP⟩

/-- C3 counterexample: at gapPercent = 0.15, openingPrice = 100 the invariant
fails over the rounded output fields: the returned Profit is 1993.04 while
round(abs(entryPrice - takeProfitPrice) * shareCount, 2) over the rounded
fields is round(10.43 * 191, 2) = 1992.13. -/
theorem plan_invariant_rounded_counterexample :
    ¬ ((Calculate (3/20) 100).Shares =
         ⌊maxRiskBudget / |(Calculate (3/20) 100).StopLossPrice - (Calculate (3/20) 100).EntryPrice|⌋ ∧
       (Calculate (3/20) 100).Profit =
         round2 (|(Calculate (3/20) 100).EntryPrice - (Calculate (3/20) 100).TakeProfitPrice| *
           ((Calculate (3/20) 100).Shares : ℚ))) := by
  obtain ⟨hE, hSL, hTP, hS, hP⟩ := calc_scenario
  intro h
  have h2 := h.2
  rw [hP, hE, hTP, hS,
    show |(100:ℚ) - 8957/100| = 1043/100 by rw [abs_of_nonneg (by norm_num)]; norm_num,
    show ((1043:ℚ)/100) * ((191:ℤ):ℚ) = 199213/100 by norm_num,
    round2_eval (199213/100) 199213 (199213/100) (by norm_num) (by norm_num) (by norm_num)
      (by norm_num)] at h2
  norm_num at h2

/-- C3 amended: the invariant holds over the unrounded values: shareCount is
the floor of maxRiskBudget over the absolute unrounded stop distance, and
expectedProfit is round2 of the absolute unrounded target distance times the
share count (entryPrice being the unrounded openingPrice). -/
theorem plan_invariant_unrounded (g p : ℚ) :
    (Calculate g p).Shares = ⌊maxRiskBudget / |specStopLossPrice g p - p|⌋ ∧
    (Calculate g p).Profit = round2 (|p - specTakeProfitPrice g p| * ((Calculate g p).Shares : ℚ)) := by
  obtain ⟨-, -, -, h4, h5⟩ := calculate_fields g p
  refine ⟨h4, ?_⟩
  rw [h5, h4]

/-- C7: the candidate filter returns the order-preserving subsequence of its
input with abs(gapPercent) at least 0.10: it is a sublist of the input, every
occurrence of a stock with abs(Gap) at least 1/10 is kept (same count as the
input), and every stock with abs(Gap) below 1/10 is excluded. -/
theorem filter_material_gaps (l : List Stock) (s : Stock) :
    List.Sublist (filterStocks l) l ∧
    ((1:ℚ)/10 ≤ |s.Gap| → (filterStocks l).count s = l.count s) ∧
    (|s.Gap| < 1/10 → (filterStocks l).count s = 0) := by
  refine ⟨List.filter_sublist l, fun h => ?_, fun h => ?_⟩
  · exact List.count_filter (by simpa using not_lt.mpr h)
  · rw [List.count_eq_zero]
    intro hmem
    have hp := List.of_mem_filter hmem
    simp only [decide_eq_true_eq] at hp
    exact hp h

/-- Witness for filter_material_gaps on a one-stock list with gap 0.2. -/
theorem filter_material_gaps_witness :
    (1:ℚ)/10 ≤ |(Stock.mk "A" (1/5) 10).Gap| ∧
    (filterStocks [Stock.mk "A" (1/5) 10]).count (Stock.mk "A" (1/5) 10) =
      [Stock.mk "A" (1/5) 10].count (Stock.mk "A" (1/5) 10) := by
  have h : (1:ℚ)/10 ≤ |(Stock.mk "A" (1/5) 10).Gap| := by
    rw [show (Stock.mk "A" (1/5) 10).Gap = 1/5 from rfl, abs_of_nonneg (by norm_num)]
    norm_num
  exact ⟨h, (filter_material_gaps [Stock.mk "A" (1/5) 10] (Stock.mk "A" (1/5) 10)).2.1 h⟩

/-- Once the channel holds exactly as many pending values as the completion
count N expects beyond the current slice, the range loop drains them all and
exits: scaffolding for the collection-loop claim. -/
theorem collectLoop_complete (pending : List Selection) :
    ∀ (acc : List Selection) (N : ℕ), N = acc.length + pending.length → pending ≠ [] →
      collectLoop N pending acc false = some (acc ++ pending) := by
  induction pending with
  | nil => intro acc N _ hne; exact absurd rfl hne
  | cons s rest ih =>
    intro acc N hN _
    show collectLoop N rest (acc ++ [s]) (acc.length + 1 == N) = some (acc ++ s :: rest)
    cases rest with
    | nil =>
      have hb : (acc.length + 1 == N) = true := by
        simp only [hN, List.length_cons, List.length_nil]
        simp
      rw [hb]
      show some (acc ++ [s]) = some (acc ++ [s])
      rfl
    | cons r rs =>
      have hb : (acc.length + 1 == N) = false := by
        simp only [hN, List.length_cons]
        simp only [beq_eq_false_iff_ne, ne_eq]
        omega
      rw [hb]
      have h2 := ih (acc ++ [s]) N (by simp [hN]; omega) (by simp)
      simpa using h2

/-- C4: the collection loop terminates with all N selections for every
dispatched count N that is at least 1, but for N = 0 (an empty filtered
stock list) it never receives anything and never closes the channel: the
range over selectionChan blocks forever and the Go runtime deadlock-panics,
instead of completing with an empty batch as the claim states.  The batch
handed on always holds exactly one record per dispatched stock, however many
lookups failed. -/
theorem collect_termination (fetch : String → Except String (List Article))
    (st : Stock) (stocks : List Stock) :
    collectLoop ([] : List Stock).length (fanOut fetch []) [] false = none ∧
    collectLoop (st :: stocks).length (fanOut fetch (st :: stocks)) [] false =
      some (fanOut fetch (st :: stocks)) ∧
    (fanOut fetch (st :: stocks)).length = (st :: stocks).length := by
  refine ⟨rfl, ?_, by simp [fanOut]⟩
  have h := collectLoop_complete (fanOut fetch (st :: stocks)) []
    (st :: stocks).length (by simp [fanOut]) (by simp [fanOut])
  simpa using h

/-- C5: a candidate whose news lookup fails is still included in the output
exactly once, as the unique Selection at its own index, with an empty
Articles list; the batch length is unaffected and the failure is reported
on the console. -/
theorem failed_lookup_empty_news (fetch : String → Except String (List Article))
    (stocks : List Stock) (i : ℕ) (s : Stock) (e : String)
    (hi : stocks[i]? = some s) (he : fetch s.Ticker = .error e) :
    (fanOut fetch stocks)[i]? = some (enrich fetch s) ∧
    (enrich fetch s).Articles = [] ∧
    (fanOut fetch stocks).length = stocks.length ∧
    ("error loading news about " ++ s.Ticker ++ ", " ++ e) ∈ taskLogs fetch s := by
  refine ⟨?_, ?_, ?_, ?_⟩
  · rw [fanOut, List.getElem?_map, hi]
    rfl
  · simp [enrich, he]
  · simp [fanOut]
  · simp [taskLogs, he]

/-- Witness for failed_lookup_empty_news: one stock, a lookup that always fails. -/
theorem failed_lookup_empty_news_witness :
    (fanOut fetchBoom [Stock.mk "ABC" (1/5) 50])[0]? =
      some (enrich fetchBoom (Stock.mk "ABC" (1/5) 50)) ∧
    (enrich fetchBoom (Stock.mk "ABC" (1/5) 50)).Articles = [] ∧
    (fanOut fetchBoom [Stock.mk "ABC" (1/5) 50]).length = 1 ∧
    ("error loading news about " ++ (Stock.mk "ABC" (1/5) 50).Ticker ++ ", " ++ "boom") ∈
      taskLogs fetchBoom (Stock.mk "ABC" (1/5) 50) := by
  have h := failed_lookup_empty_news fetchBoom
    [Stock.mk "ABC" (1/5) 50] 0 (Stock.mk "ABC" (1/5) 50) "boom" rfl rfl
  simpa using h

/-- C6 counterexample: a 200-status response with a malformed body is NOT an
error for FetchNews — line 148 discards the Decode error, so the call
returns successfully with an empty article list, against the claim that a
malformed body is one of exactly three error cases. -/
theorem fetchnews_malformed_body_counterexample :
    FetchNews none (Except.ok { StatusCode := 200, decodedBody := none }) = Except.ok [] ∧
    exceptIsError (FetchNews none (Except.ok { StatusCode := 200, decodedBody := none })) = false := by
  have hcond : ¬ ((200:ℤ) < 200 ∨ (200:ℤ) > 299) := by norm_num
  constructor
  · simp [FetchNews, hcond]
  · simp [FetchNews, exceptIsError, hcond]

/-- C6 amended: FetchNews returns an error in exactly three cases, all
surfaced as the same Except error to the caller: request construction
failure, transport failure (client.Do error), and a non-2xx status; a
malformed response body is NOT an error and silently degrades to an empty
article list. -/
theorem fetchnews_error_cases_amended (nr : Option String) (dr : Except String HttpResponse) :
    exceptIsError (FetchNews nr dr) = (nr.isSome || transportFailed dr || nonSuccessStatus dr) := by
  cases nr with
  | some e => rfl
  | none =>
    cases dr with
    | error e => rfl
    | ok r =>
      by_cases h : r.StatusCode < 200 ∨ r.StatusCode > 299
      · simp [FetchNews, transportFailed, nonSuccessStatus, exceptIsError, h]
      · simp [FetchNews, transportFailed, nonSuccessStatus, exceptIsError, h]

/-- C8 counterexample: when Deliver fails, the failure is reported, but main
returns normally, so the Go process exits with status 0, not non-zero. -/
theorem deliver_exit_zero_counterexample :
    (mainExitCode (Deliver (Except.error "disk full") (Except.ok ()))).1 = 0 ∧
    (mainExitCode (Deliver (Except.error "disk full") (Except.ok ()))).2 =
      ["Error writing output: error creating file: disk full"] ∧
    ¬ ((mainExitCode (Deliver (Except.error "disk full") (Except.ok ()))).1 ≠ 0) := by
  exact ⟨rfl, rfl, fun h => h rfl⟩

/-- C8 amended: if persisting the batch fails, the failure is reported (the
"Error writing output" line) and the run stops before the success message,
but the process exit status is 0: both branches of main return normally and
os.Exit is never called. -/
theorem deliver_failure_reported_exit_zero (c e : Except String Unit)
    (h : exceptIsError (Deliver c e) = true) :
    ∃ m, Deliver c e = Except.error m ∧
      mainExitCode (Deliver c e) = (0, ["Error writing output: " ++ m]) := by
  cases c with
  | error ce => exact ⟨"error creating file: " ++ ce, rfl, rfl⟩
  | ok u =>
    cases e with
    | error ee => exact ⟨"error encoding selections: " ++ ee, rfl, rfl⟩
    | ok v => exact absurd h (by simp [Deliver, exceptIsError])

/-- Witness for deliver_failure_reported_exit_zero on a failed file create. -/
theorem deliver_failure_reported_exit_zero_witness :
    exceptIsError (Deliver (Except.error "no space") (Except.ok ())) = true ∧
    ∃ m, Deliver (Except.error "no space") (Except.ok ()) = Except.error m ∧
      mainExitCode (Deliver (Except.error "no space") (Except.ok ())) =
        (0, ["Error writing output: " ++ m]) :=
  ⟨rfl, deliver_failure_reported_exit_zero (Except.error "no space") (Except.ok ()) rfl⟩

/-- Scaffolding for the Load claim: on rows that all have at least 3 fields,
the row loop panics nowhere and returns exactly the filterMap of the rows. -/
theorem parseRows_of_wellFormed (pf : String → Option ℚ) (rows : List (List String))
    (h : ∀ r ∈ rows, 3 ≤ r.length) :
    parseRows pf rows = some (stocksSpec pf rows) := by
  induction rows with
  | nil => rfl
  | cons row rest ih =>
    have hrow : 3 ≤ row.length := h row (by simp)
    have hrest : ∀ r ∈ rest, 3 ≤ r.length := fun r hr => h r (by simp [hr])
    rcases row with _ | ⟨a, _ | ⟨b, _ | ⟨c, rs⟩⟩⟩
    · simp at hrow
    · simp at hrow
    · simp at hrow
    · cases hg : pf b with
      | none => simp [parseRows, stocksSpec, hg, ih hrest, List.filterMap_cons]
      | some gv =>
        cases ho : pf c with
        | none => simp [parseRows, stocksSpec, hg, ho, ih hrest, List.filterMap_cons]
        | some ov => simp [parseRows, stocksSpec, hg, ho, ih hrest, List.filterMap_cons]

/-- C9 counterexample: the 3-field precondition is not necessary for panic
freedom.  A 2-field row whose gap field does not parse (as with "x") is
skipped by the continue before row[2] is ever indexed: Load returns the
empty stock list with no panic although the precondition fails. -/
theorem load_short_row_counterexample :
    Load pfNone [["sym", "gap", "open"], ["AAPL", "x"]] = some [] ∧
    ¬ (∀ r ∈ ([["sym", "gap", "open"], ["AAPL", "x"]] : List (List String)), 3 ≤ r.length) := by
  constructor
  · rfl
  · intro h
    have h2 := h ["AAPL", "x"] (by simp)
    simp at h2

/-- C9 amended: deleting the header from an empty row list panics, and rows
shorter than the field being indexed can panic; the at-least-one-row,
all-rows-at-least-3-fields precondition is sufficient (not necessary) for
panic freedom, and under it Load returns the parsed stock list (one Stock
per data row whose numeric fields parse) with a nil error. -/
theorem load_panic_amended (pf : String → Option ℚ) (rows : List (List String))
    (hne : rows ≠ []) (hlen : ∀ r ∈ rows, 3 ≤ r.length) :
    Load pf [] = none ∧ Load pf rows = some (stocksSpec pf rows.tail) := by
  refine ⟨rfl, ?_⟩
  cases rows with
  | nil => exact absurd rfl hne
  | cons hd tl =>
    show parseRows pf tl = some (stocksSpec pf tl)
    exact parseRows_of_wellFormed pf tl (fun r hr => hlen r (by simp [hr]))

/-- Witness for load_panic_amended: a header row plus one well-formed row. -/
theorem load_panic_amended_witness :
    (([["sym", "gap", "open"], ["AAPL", "0.2", "50"]] : List (List String)) ≠ [] ∧
      ∀ r ∈ ([["sym", "gap", "open"], ["AAPL", "0.2", "50"]] : List (List String)), 3 ≤ r.length) ∧
    (Load pfNone [] = none ∧
      Load pfNone [["sym", "gap", "open"], ["AAPL", "0.2", "50"]] =
        some (stocksSpec pfNone ([["sym", "gap", "open"], ["AAPL", "0.2", "50"]] : List (List String)).tail)) := by
  have h1 : (([["sym", "gap", "open"], ["AAPL", "0.2", "50"]] : List (List String)) ≠ []) := by simp
  have h2 : ∀ r ∈ ([["sym", "gap", "open"], ["AAPL", "0.2", "50"]] : List (List String)), 3 ≤ r.length := by
    intro r hr
    simp only [List.mem_cons, List.mem_singleton, List.not_mem_nil, or_false] at hr
    rcases hr with rfl | rfl <;> decide
  exact ⟨⟨h1, h2⟩, load_panic_amended pfNone _ h1 h2⟩

/-- C10: gapPercent = -1 passes the 10% filter, and for any positive finite
openingPrice, Calculate divides by zero: the implied prior close is +Inf,
the returned Shares is 0 (int of 2000/+Inf = +0), TakeProfitPrice is +Inf,
StopLossPrice is -Inf, and Profit is NaN (+Inf times 0). -/
theorem calculate_gap_minus_one (p : ℚ) (hp : 0 < p) :
    EF.div (EF.fin p) (EF.add (EF.fin 1) (EF.fin (-1))) = EF.pinf ∧
    (CalculateEF (EF.fin (-1)) (EF.fin p)).Shares = 0 ∧
    (CalculateEF (EF.fin (-1)) (EF.fin p)).TakeProfitPrice = EF.pinf ∧
    (CalculateEF (EF.fin (-1)) (EF.fin p)).StopLossPrice = EF.ninf ∧
    (CalculateEF (EF.fin (-1)) (EF.fin p)).Profit = EF.nan ∧
    ¬ (|(-1 : ℚ)| < 1/10) := by
  have hc : EF.add (EF.fin 1) (EF.fin (-1)) = EF.fin 0 := by
    show EF.fin (1 + -1) = EF.fin 0
    norm_num
  have h2 : EF.div (EF.fin p) (EF.fin 0) = EF.pinf := by
    show (if (0:ℚ) = 0 then (if 0 < p then EF.pinf else if p < 0 then EF.ninf else EF.nan)
          else EF.fin (p / 0)) = EF.pinf
    rw [if_pos rfl, if_pos hp]
  have h3 : EF.sub EF.pinf (EF.fin p) = EF.pinf := rfl
  have h4 : EF.mul (EF.fin profitPercent) EF.pinf = EF.pinf := by
    show (if 0 < profitPercent then EF.pinf else if profitPercent < 0 then EF.ninf else EF.nan)
        = EF.pinf
    rw [if_pos (by norm_num [profitPercent])]
  have h5 : EF.sub (EF.fin p) EF.pinf = EF.ninf := rfl
  have h6 : EF.add (EF.fin p) EF.pinf = EF.pinf := rfl
  have h7 : EF.sub EF.ninf (EF.fin p) = EF.ninf := rfl
  have h8 : EF.abs EF.ninf = EF.pinf := rfl
  have h9 : EF.div (EF.fin maxLossPerTrade) EF.pinf = EF.fin 0 := rfl
  have h10 : EF.toInt (EF.fin 0) = 0 := by simp [EF.toInt, goTrunc]
  have h11 : EF.ofInt 0 = EF.fin 0 := by simp [EF.ofInt]
  have h12 : EF.mul EF.pinf (EF.fin 0) = EF.nan := by
    show (if (0:ℚ) < 0 then EF.pinf else if (0:ℚ) < 0 then EF.ninf else EF.nan) = EF.nan
    rw [if_neg (lt_irrefl 0), if_neg (lt_irrefl 0)]
  have h13 : EF.round2 EF.nan = EF.nan := rfl
  have h14 : EF.mul EF.ninf (EF.fin 100) = EF.ninf := by
    show (if (0:ℚ) < 100 then EF.ninf else if (100:ℚ) < 0 then EF.pinf else EF.nan) = EF.ninf
    rw [if_pos (by norm_num)]
  have h15 : EF.div EF.ninf (EF.fin 100) = EF.ninf := by
    show (if (0:ℚ) ≤ 100 then EF.ninf else EF.pinf) = EF.ninf
    rw [if_pos (by norm_num)]
  have h16 : EF.round2 EF.ninf = EF.ninf := by
    unfold EF.round2
    rw [h14]
    show EF.div EF.ninf (EF.fin 100) = EF.ninf
    exact h15
  have h17 : EF.mul EF.pinf (EF.fin 100) = EF.pinf := by
    show (if (0:ℚ) < 100 then EF.pinf else if (100:ℚ) < 0 then EF.ninf else EF.nan) = EF.pinf
    rw [if_pos (by norm_num)]
  have h18 : EF.div EF.pinf (EF.fin 100) = EF.pinf := by
    show (if (0:ℚ) ≤ 100 then EF.pinf else EF.ninf) = EF.pinf
    rw [if_pos (by norm_num)]
  have h19 : EF.round2 EF.pinf = EF.pinf := by
    unfold EF.round2
    rw [h17]
    show EF.div EF.pinf (EF.fin 100) = EF.pinf
    exact h18
  refine ⟨by rw [hc]; exact h2, ?_, ?_, ?_, ?_, ?_⟩
  · show EF.toInt (EF.div (EF.fin maxLossPerTrade)
        (EF.abs (EF.sub (EF.sub (EF.fin p)
          (EF.mul (EF.fin profitPercent) (EF.sub (EF.div (EF.fin p)
            (EF.add (EF.fin 1) (EF.fin (-1)))) (EF.fin p)))) (EF.fin p)))) = 0
    simp only [hc, h2, h3, h4, h5, h7, h8, h9, h10]
  · show EF.round2 (EF.add (EF.fin p)
        (EF.mul (EF.fin profitPercent) (EF.sub (EF.div (EF.fin p)
          (EF.add (EF.fin 1) (EF.fin (-1)))) (EF.fin p)))) = EF.pinf
    simp only [hc, h2, h3, h4, h6, h19]
  · show EF.round2 (EF.sub (EF.fin p)
        (EF.mul (EF.fin profitPercent) (EF.sub (EF.div (EF.fin p)
          (EF.add (EF.fin 1) (EF.fin (-1)))) (EF.fin p)))) = EF.ninf
    simp only [hc, h2, h3, h4, h5, h16]
  · show EF.round2 (EF.round2 (EF.mul (EF.abs (EF.sub (EF.fin p)
        (EF.add (EF.fin p) (EF.mul (EF.fin profitPercent) (EF.sub (EF.div (EF.fin p)
          (EF.add (EF.fin 1) (EF.fin (-1)))) (EF.fin p))))))
        (EF.ofInt (EF.toInt (EF.div (EF.fin maxLossPerTrade)
          (EF.abs (EF.sub (EF.sub (EF.fin p)
            (EF.mul (EF.fin profitPercent) (EF.sub (EF.div (EF.fin p)
              (EF.add (EF.fin 1) (EF.fin (-1)))) (EF.fin p)))) (EF.fin p)))))))) = EF.nan
    simp only [hc, h2, h3, h4, h5, h6, h7, h8, h9, h10, h11, h12, h13]
  · rw [abs_neg, abs_one]
    norm_num

/-- Witness for calculate_gap_minus_one at openingPrice = 100. -/
theorem calculate_gap_minus_one_witness :
    (0:ℚ) < 100 ∧
    (EF.div (EF.fin 100) (EF.add (EF.fin 1) (EF.fin (-1))) = EF.pinf ∧
     (CalculateEF (EF.fin (-1)) (EF.fin 100)).Shares = 0 ∧
     (CalculateEF (EF.fin (-1)) (EF.fin 100)).TakeProfitPrice = EF.pinf ∧
     (CalculateEF (EF.fin (-1)) (EF.fin 100)).StopLossPrice = EF.ninf ∧
     (CalculateEF (EF.fin (-1)) (EF.fin 100)).Profit = EF.nan ∧
     ¬ (|(-1 : ℚ)| < 1/10)) :=
  ⟨by norm_num, calculate_gap_minus_one 100 (by norm_num)⟩
